import Mathlib

/-!
Verification of the Beam scatter/gather orchestration.

The development shallowly embeds the orchestration logic of the repository:
the React component `BeamView.tsx` (handlers, derived flags, the two
auto-merge effects) and the fusion accept handler of `Fusion.tsx` are
translated directly from the source; the beam store operations
(setRayCount, startScatteringAll, stopScatteringAll, createFusion, ray and
fusion job lifecycle) are not present under src/ and are modelled from the
specification, as marked in their doc comments.

Modelling notes for the React part:
- Component state (hasAutoMerged, warnIsScattering) and store state are
  merged into one record, `BeamState`; handlers are state transformers.
- A handler closure captures the render-time value of `isScattering`.
  Within one handler invocation that snapshot does not change even when the
  handler mutates the store, so `handleStartMergeConfirmation` is modelled
  with the snapshot taken at entry: the inner `handleCreateFusion` check
  sees the pre-stop value of `isScattering`, exactly as the source closure
  does.
- The two `React.useEffect` blocks guarded by `shallAutoMerge` and
  `shallResumeMerge` run after every state change; `runEffects` applies at
  most one of them (they are mutually exclusive on the value of
  `gatherAutoStartAfterScatter`) and a lemma shows the result is quiescent,
  so one round is the fixpoint.
-/

/-- Lifecycle state of a ray. Modelled from the spec: section 4.1 of the
spec gives the ray state machine (idle, generating, done, error, stopped);
the store module holding it is not under src/. -/
inductive RayStatus
  | idle
  | generating
  | done
  | error
  | stopped
deriving DecidableEq

/-- One scatter candidate. Modelled from the spec: the ray record of the
beam store (id, lifecycle state, accumulated output message as an ordered
sequence of content fragments, optional error text) is described in
section 3 of the spec; the store module is not under src/. -/
structure Ray where
  rayId : Nat
  status : RayStatus
  fragments : List String
  errorText : Option String
deriving DecidableEq

/-- Lifecycle state of a fusion. Modelled from the spec: section 4.4 gives
the fusion state machine (idle/editable, fusing, done, error, stopped). -/
inductive FusionStage
  | idle
  | fusing
  | done
  | error
  | stopped
deriving DecidableEq

/-- One gather/merge operation. Modelled from the spec: section 3 lists the
fusion attributes (factory id, target model id, output message, lifecycle
state, error text) and the snapshot-of-inputs invariant. -/
structure Fusion where
  fusionId : Nat
  factoryId : String
  llmId : String
  stage : FusionStage
  outputDMessage : Option (List String)
  errorText : Option String
  inputSnapshot : List (List String)
deriving DecidableEq

/-- A merge strategy entry of the factory registry. Modelled from the spec:
section 4.3 says each factory declares a unique id and the capability flags
editable-instructions and auto-runnable. -/
structure Factory where
  id : String
  autoRunnable : Bool
  editableInstructions : Bool
deriving DecidableEq

/-- The fixed factory registry. Modelled from the spec: section 4.3 names
the example strategies pick best, synthesize and guided merge with custom
instructions; the registry module is not under src/. -/
def fusionFactories : List Factory :=
  [ { id := "pick-best", autoRunnable := true, editableInstructions := false },
    { id := "synthesize", autoRunnable := true, editableInstructions := false },
    { id := "guided-merge", autoRunnable := false, editableInstructions := true } ]

/-- Registry lookup by id, as used by `Fusion.tsx` via `findFusionFactory`. -/
def findFusionFactory (factoryId : Option String) : Option Factory :=
  match factoryId with
  | none => none
  | some fid => fusionFactories.find? (fun f => f.id == fid)

/-- Whether the factory bound to the given id is auto-runnable. -/
def factoryIsAutoRunnable (factoryId : Option String) : Bool :=
  match findFusionFactory factoryId with
  | some f => f.autoRunnable
  | none => false

/-- The combined state: beam store fields (rays, fusions, selected factory
and target model ids, success callback presence, configured ray maximum, id
counter) together with the `BeamView` component state (`hasAutoMerged`,
`warnIsScattering`) and the module setting `gatherAutoStartAfterScatter`. -/
structure BeamState where
  rays : List Ray
  fusions : List Fusion
  currentFactoryId : Option String
  currentGatherLlmId : Option String
  hasSuccessCallback : Bool
  rayCountMax : Nat
  nextId : Nat
  hasAutoMerged : Bool
  warnIsScattering : Bool
  gatherAutoStartAfterScatter : Bool
deriving DecidableEq

/-- Readiness of one ray. Modelled from the spec: a ready ray is a ray in a
terminal, non-stopped state with non-empty output (section 4.2 and the
glossary); the store field `raysReady` counts these. -/
def Ray.isReady (r : Ray) : Bool :=
  (r.status == RayStatus.done || r.status == RayStatus.error) && !r.fragments.isEmpty

/-- The `raysReady` store field. Modelled from the spec: the number of rays
usable as fusion input. -/
def raysReady (rays : List Ray) : Nat :=
  (rays.filter Ray.isReady).length

/-- The `isScattering` store flag. Modelled from the spec: the session-level
is-any-ray-generating flag of section 3. -/
def isScattering (rays : List Ray) : Bool :=
  rays.any (fun r => r.status == RayStatus.generating)

/-- The composite `canGather` selector, translated from `BeamView.tsx` line
58: `state.raysReady >= 2 && state.currentFactoryId !== null &&
state.currentGatherLlmId !== null`. -/
def canGather (s : BeamState) : Bool :=
  decide (raysReady s.rays ≥ 2) && s.currentFactoryId.isSome && s.currentGatherLlmId.isSome

/-- The `stopScatteringAll` store operation. Modelled from the spec:
stopAll cancels every ray currently generating, transitioning each to
stopped; rays already terminal are unaffected (section 4.2). -/
def stopScatteringAll (rays : List Ray) : List Ray :=
  rays.map fun r =>
    if r.status == RayStatus.generating then { r with status := RayStatus.stopped } else r

/-- Restart of one ray. Modelled from the spec: restart transitions back to
generating after clearing prior output and error (section 4.1). -/
def rayStart (r : Ray) : Ray :=
  { r with status := RayStatus.generating, fragments := [], errorText := none }

/-- The `startScatteringAll` store operation. Modelled from the spec: for
every ray, if restart is true or the ray is idle, begin generation; rays
already generating are left untouched (section 4.2). -/
def startScatteringAll (restart : Bool) (rays : List Ray) : List Ray :=
  rays.map fun r =>
    if r.status == RayStatus.generating then r
    else if restart || r.status == RayStatus.idle then rayStart r
    else r

/-- A fresh idle ray, as created when the ray count increases. Modelled
from the spec: rays are created idle with empty output (section 4.2). -/
def mkIdleRay (id : Nat) : Ray :=
  { rayId := id, status := RayStatus.idle, fragments := [], errorText := none }

/-- The clamped target count used by `setRayCount`. Modelled from the spec:
n is clamped to the range from 0 to the configured maximum, never
rejected (section 4.2). -/
def clampRayCount (n : Int) (maxCount : Nat) : Nat :=
  (min (max n 0) (maxCount : Int)).toNat

/-- The `setRayCount` store operation. Modelled from the spec: resizes the
ray set to exactly the clamped count, preserving existing rays by index,
removing trailing rays and creating new idle rays as needed (section
4.2). -/
def setRayCount (n : Int) (s : BeamState) : BeamState :=
  let m := clampRayCount n s.rayCountMax
  let kept := s.rays.take m
  let newRays := (List.range (m - s.rays.length)).map (fun i => mkIdleRay (s.nextId + i))
  { s with rays := kept ++ newRays, nextId := s.nextId + (m - s.rays.length) }

/-- The job handles cancelled by `setRayCount`. Modelled from the spec:
removing a generating ray implies cancelling its job first (section 4.2);
this returns the ids of the removed rays whose job is cancelled. -/
def setRayCountCancelledJobs (n : Int) (s : BeamState) : List Nat :=
  let m := clampRayCount n s.rayCountMax
  ((s.rays.drop m).filter (fun r => r.status == RayStatus.generating)).map Ray.rayId

/-- An incremental output event of a generation job, as in the GenerationJob
adapter contract of section 6 of the spec: content delta, done, or error. -/
inductive JobEvent
  | delta (text : String)
  | completed
  | failed (msg : String)
deriving DecidableEq

/-- Application of one job event to a ray. Modelled from the spec: content
deltas append to the output while generating; done and error are reached
exactly once; once terminal the ray is immutable until an explicit
restart, so a final chunk in flight after cancellation is dropped
(sections 3, 4.1 and 5). -/
def Ray.applyJobEvent (r : Ray) (ev : JobEvent) : Ray :=
  if r.status == RayStatus.generating then
    match ev with
    | JobEvent.delta t => { r with fragments := r.fragments ++ [t] }
    | JobEvent.completed => { r with status := RayStatus.done }
    | JobEvent.failed m => { r with status := RayStatus.error, errorText := some m }
  else r

/-- Cancellation of one ray job. Modelled from the spec: an explicit stop of
a generating ray yields the terminal state stopped, never done and never
error (sections 4.2, 5 and 7). -/
def rayStop (r : Ray) : Ray :=
  if r.status == RayStatus.generating then { r with status := RayStatus.stopped } else r

/-- Application of one job event to a fusion. Modelled from the spec: the
fusion output streams while fusing; once terminal the fusion is immutable
until a restart (sections 4.4 and 5). -/
def Fusion.applyJobEvent (f : Fusion) (ev : JobEvent) : Fusion :=
  if f.stage == FusionStage.fusing then
    match ev with
    | JobEvent.delta t => { f with outputDMessage := some ((f.outputDMessage.getD []) ++ [t]) }
    | JobEvent.completed => { f with stage := FusionStage.done }
    | JobEvent.failed m => { f with stage := FusionStage.error, errorText := some m }
  else f

/-- Cancellation of one fusion job, the fusing half of `toggleGathering`.
Modelled from the spec: if already fusing, cancel and transition to
stopped (section 4.4). -/
def fusionStop (f : Fusion) : Fusion :=
  if f.stage == FusionStage.fusing then { f with stage := FusionStage.stopped } else f

/-- The snapshot of ready ray outputs taken at merge start. Modelled from
the spec: a fusion input is a snapshot reference to ray outputs at
merge-start time (section 3). -/
def snapshotReadyOutputs (rays : List Ray) : List (List String) :=
  (rays.filter Ray.isReady).map Ray.fragments

/-- The fusion record built by `createFusion`. Modelled from the spec: the
new fusion is bound to the selected factory and target model, and is
immediately started when the factory is auto-runnable and
auto-start-on-scatter-completion is enabled (section 4.5). -/
def newFusion (s : BeamState) (fid lid : String) : Fusion :=
  let startNow := factoryIsAutoRunnable s.currentFactoryId && s.gatherAutoStartAfterScatter
  { fusionId := s.nextId
    factoryId := fid
    llmId := lid
    stage := if startNow then FusionStage.fusing else FusionStage.idle
    outputDMessage := none
    errorText := none
    inputSnapshot := if startNow then snapshotReadyOutputs s.rays else [] }

/-- The `createFusion` store operation. Modelled from the spec: creating a
fusion while ready-ray-count is below 2 or while no factory or model is
chosen fails the creation silently as a no-op (section 4.4); otherwise the
fusion is appended (section 4.5). -/
def createFusion (s : BeamState) : BeamState :=
  match s.currentFactoryId, s.currentGatherLlmId, canGather s with
  | some fid, some lid, true =>
      { s with fusions := s.fusions ++ [newFusion s fid lid], nextId := s.nextId + 1 }
  | _, _, _ => s

/-- The `handleScatterStart` handler of `BeamView.tsx` lines 90 to 93:
clear `hasAutoMerged` and call `startScatteringAll(restart)`. -/
def handleScatterStart (restart : Bool) (s : BeamState) : BeamState :=
  { s with hasAutoMerged := false, rays := startScatteringAll restart s.rays }

/-- The body of `handleCreateFusion` of `BeamView.tsx` lines 96 to 103,
parameterised by the render-time snapshot of `isScattering` that the
closure captured: if the snapshot says scatter is busy, raise the
confirmation and return; otherwise call the store `createFusion`. -/
def handleCreateFusionCore (isScatteringSnapshot : Bool) (s : BeamState) : BeamState :=
  if isScatteringSnapshot then { s with warnIsScattering := true } else createFusion s

/-- The `handleCreateFusion` handler invoked directly by a user click, where
the captured snapshot agrees with the current state. -/
def handleCreateFusion (s : BeamState) : BeamState :=
  handleCreateFusionCore (isScattering s.rays) s

/-- The `handleStartMergeConfirmation` handler of `BeamView.tsx` lines 106
to 110: `setWarnIsScattering(false); stopScatteringAll();
handleCreateFusion()`. The inner `handleCreateFusion` closure captured
`isScattering` at render time, before `stopScatteringAll` ran, so its
guard is evaluated on the entry value of `isScattering`. -/
def handleStartMergeConfirmation (s : BeamState) : BeamState :=
  let snapshot := isScattering s.rays
  handleCreateFusionCore snapshot
    { s with warnIsScattering := false, rays := stopScatteringAll s.rays }

/-- The `handleStartMergeDenial` handler of `BeamView.tsx` line 112. -/
def handleStartMergeDenial (s : BeamState) : BeamState :=
  { s with warnIsScattering := false }

/-- The `shallAutoMerge` condition of `BeamView.tsx` line 116:
`gatherAutoStartAfterScatter && canGather && !isScattering &&
!hasAutoMerged`. -/
def shallAutoMerge (s : BeamState) : Bool :=
  s.gatherAutoStartAfterScatter && canGather s && !isScattering s.rays && !s.hasAutoMerged

/-- The `shallResumeMerge` condition of `BeamView.tsx` line 126:
`warnIsScattering && !isScattering && !gatherAutoStartAfterScatter`. -/
def shallResumeMerge (s : BeamState) : Bool :=
  s.warnIsScattering && !isScattering s.rays && !s.gatherAutoStartAfterScatter

/-- One round of the two `React.useEffect` blocks of `BeamView.tsx` lines
117 to 130, in declaration order: the auto-merge effect sets
`hasAutoMerged` and runs `handleStartMergeConfirmation`; the resume-merge
effect runs `handleStartMergeConfirmation`. The two guards are mutually
exclusive, and `runEffects_quiescent` below shows one round reaches the
fixpoint, so this is the whole effect cascade after a state change. -/
def runEffects (s : BeamState) : BeamState :=
  if shallAutoMerge s then
    handleStartMergeConfirmation { s with hasAutoMerged := true }
  else if shallResumeMerge s then
    handleStartMergeConfirmation s
  else s

/-- The events that drive the orchestration: user actions on the view,
store-level scatter operations, and serialized job-stream updates for a
given ray id (section 5 of the spec: update events are applied one at a
time). -/
inductive Event
  | scatterStart (restart : Bool)
  | scatterStop
  | setCount (n : Int)
  | rayJob (id : Nat) (ev : JobEvent)
  | createClick
  | confirmClick
  | denyClick
  | acceptRays
  | acceptFusion (id : Nat)
deriving DecidableEq

/-- The state transition of one event, before the effect round. The accept
events do not touch the state: `handleRaysOperation` in `BeamView.tsx`
lines 74 to 88 and `handleFusionUse` in `Fusion.tsx` lines 80 to 86 only
read the store and invoke the callback. -/
def applyEvent : Event → BeamState → BeamState
  | Event.scatterStart r, s => handleScatterStart r s
  | Event.scatterStop, s => { s with rays := stopScatteringAll s.rays }
  | Event.setCount n, s => setRayCount n s
  | Event.rayJob i ev, s =>
      { s with rays := s.rays.map (fun r => if r.rayId == i then r.applyJobEvent ev else r) }
  | Event.createClick, s => handleCreateFusion s
  | Event.confirmClick, s => handleStartMergeConfirmation s
  | Event.denyClick, s => handleStartMergeDenial s
  | Event.acceptRays, s => s
  | Event.acceptFusion _, s => s

/-- One full step: the event transition followed by the effect round. -/
def step (e : Event) (s : BeamState) : BeamState :=
  runEffects (applyEvent e s)

/-- The combined fragments of all rays, as computed by
`handleRaysOperation` in `BeamView.tsx` line 76. -/
def allRayFragments (s : BeamState) : List String :=
  s.rays.flatMap Ray.fragments

/-- The callback invocations of the use branch of `handleRaysOperation` in
`BeamView.tsx` lines 74 to 88: invoked only when the combined fragments
are non-empty and a success callback is registered, with the combined
fragments as the output message. -/
def handleRaysOperationUse (s : BeamState) : List (List String) :=
  let allFragments := allRayFragments s
  if allFragments.length ≠ 0 then
    if s.hasSuccessCallback then [allFragments] else []
  else []

/-- The callback invocations of `handleFusionUse` in `Fusion.tsx` lines 80
to 86: invoked only when the fusion is found, its output message has
fragments, and a success callback is registered. -/
def handleFusionUse (fid : Nat) (s : BeamState) : List (List String) :=
  match s.fusions.find? (fun f => f.fusionId == fid) with
  | some f =>
      match f.outputDMessage with
      | some frags => if frags.length ≠ 0 ∧ s.hasSuccessCallback then [frags] else []
      | none => []
  | none => []

/-- The success-callback invocations emitted by one event: only the two
accept events can emit, everything else is silent. -/
def emits : Event → BeamState → List (List String)
  | Event.acceptRays, s => handleRaysOperationUse s
  | Event.acceptFusion i, s => handleFusionUse i s
  | _, _ => []

/-- Auto-merge firings along a trace of events: after each event the effect
round runs, and a firing is counted when the auto-merge guard is up. -/
def traceAutoFires : BeamState → List Event → Nat
  | _, [] => 0
  | s, e :: es =>
      let s1 := applyEvent e s
      (if shallAutoMerge s1 then 1 else 0) + traceAutoFires (runEffects s1) es

/-! ### Helper lemmas about the scatter operations -/

theorem isScattering_stopScatteringAll (rays : List Ray) :
    isScattering (stopScatteringAll rays) = false := by
  induction rays with
  | nil => rfl
  | cons r rs ih =>
    simp only [stopScatteringAll, List.map_cons, isScattering, List.any_cons] at ih ⊢
    by_cases h : r.status = RayStatus.generating
    · simpa [h] using ih
    · simpa [h] using ih

theorem stopScatteringAll_eq_self (rays : List Ray) (h : isScattering rays = false) :
    stopScatteringAll rays = rays := by
  induction rays with
  | nil => rfl
  | cons r rs ih =>
    simp only [isScattering, List.any_cons, Bool.or_eq_false_iff] at h
    obtain ⟨h1, h2⟩ := h
    simp only [stopScatteringAll, List.map_cons, h1, Bool.false_eq_true, if_false]
    rw [List.cons_inj_right]
    exact ih h2

theorem isReady_stopRay (r : Ray) :
    Ray.isReady (if r.status == RayStatus.generating then
      { r with status := RayStatus.stopped } else r) = Ray.isReady r := by
  obtain ⟨id, st, frags, err⟩ := r
  by_cases h : st = RayStatus.generating
  · subst h
    rfl
  · simp [h]

theorem raysReady_stopScatteringAll (rays : List Ray) :
    raysReady (stopScatteringAll rays) = raysReady rays := by
  induction rays with
  | nil => rfl
  | cons r rs ih =>
    simp only [stopScatteringAll, List.map_cons, raysReady, List.filter_cons] at ih ⊢
    rw [isReady_stopRay]
    by_cases h : Ray.isReady r
    · simp only [h, List.length_cons]
      exact congrArg (· + 1) ih
    · simp only [h]
      exact ih

/-! ### Frame lemmas for createFusion and the confirmation handler -/

theorem createFusion_rays (s : BeamState) : (createFusion s).rays = s.rays := by
  unfold createFusion
  split <;> rfl

theorem createFusion_warn (s : BeamState) :
    (createFusion s).warnIsScattering = s.warnIsScattering := by
  unfold createFusion
  split <;> rfl

theorem createFusion_hasAutoMerged (s : BeamState) :
    (createFusion s).hasAutoMerged = s.hasAutoMerged := by
  unfold createFusion
  split <;> rfl

theorem createFusion_autoStart (s : BeamState) :
    (createFusion s).gatherAutoStartAfterScatter = s.gatherAutoStartAfterScatter := by
  unfold createFusion
  split <;> rfl

theorem createFusion_factoryId (s : BeamState) :
    (createFusion s).currentFactoryId = s.currentFactoryId := by
  unfold createFusion
  split <;> rfl

theorem createFusion_llmId (s : BeamState) :
    (createFusion s).currentGatherLlmId = s.currentGatherLlmId := by
  unfold createFusion
  split <;> rfl

theorem createFusion_of_canGather (s : BeamState) (h : canGather s = true) :
    ∃ fid lid, s.currentFactoryId = some fid ∧ s.currentGatherLlmId = some lid ∧
      createFusion s =
        { s with fusions := s.fusions ++ [newFusion s fid lid], nextId := s.nextId + 1 } := by
  have hf : s.currentFactoryId.isSome = true := by
    have := h
    unfold canGather at this
    simp only [Bool.and_eq_true] at this
    exact this.1.2
  have hl : s.currentGatherLlmId.isSome = true := by
    have := h
    unfold canGather at this
    simp only [Bool.and_eq_true] at this
    exact this.2
  obtain ⟨fid, hfid⟩ := Option.isSome_iff_exists.mp hf
  obtain ⟨lid, hlid⟩ := Option.isSome_iff_exists.mp hl
  refine ⟨fid, lid, hfid, hlid, ?_⟩
  unfold createFusion
  rw [hfid, hlid, h]

theorem createFusion_of_not_canGather (s : BeamState) (h : canGather s = false) :
    createFusion s = s := by
  unfold createFusion
  rcases hcf : s.currentFactoryId with _ | fid <;>
    rcases hcl : s.currentGatherLlmId with _ | lid <;>
      simp [h]

theorem createFusion_fusions_length (s : BeamState) :
    (createFusion s).fusions.length =
      if canGather s then s.fusions.length + 1 else s.fusions.length := by
  by_cases h : canGather s = true
  · obtain ⟨fid, lid, _, _, heq⟩ := createFusion_of_canGather s h
    simp [heq, h]
  · have h0 : canGather s = false := by
      revert h
      cases canGather s <;> simp
    rw [createFusion_of_not_canGather s h0, h0]
    simp

theorem hSMC_of_scattering (s : BeamState) (h : isScattering s.rays = true) :
    handleStartMergeConfirmation s =
      { s with rays := stopScatteringAll s.rays, warnIsScattering := true } := by
  unfold handleStartMergeConfirmation handleCreateFusionCore
  rw [h]
  rfl

theorem hSMC_of_not_scattering (s : BeamState) (h : isScattering s.rays = false) :
    handleStartMergeConfirmation s = createFusion { s with warnIsScattering := false } := by
  unfold handleStartMergeConfirmation handleCreateFusionCore
  rw [h]
  show createFusion { s with warnIsScattering := false, rays := stopScatteringAll s.rays }
    = createFusion { s with warnIsScattering := false }
  rw [show stopScatteringAll s.rays = s.rays from stopScatteringAll_eq_self s.rays h]

theorem hSMC_hasAutoMerged (s : BeamState) :
    (handleStartMergeConfirmation s).hasAutoMerged = s.hasAutoMerged := by
  by_cases h : isScattering s.rays = true
  · rw [hSMC_of_scattering s h]
  · rw [hSMC_of_not_scattering s (by revert h; cases isScattering s.rays <;> simp)]
    rw [createFusion_hasAutoMerged]

theorem hSMC_autoStart (s : BeamState) :
    (handleStartMergeConfirmation s).gatherAutoStartAfterScatter =
      s.gatherAutoStartAfterScatter := by
  by_cases h : isScattering s.rays = true
  · rw [hSMC_of_scattering s h]
  · rw [hSMC_of_not_scattering s (by revert h; cases isScattering s.rays <;> simp)]
    rw [createFusion_autoStart]

theorem hSMC_warn_of_not_scattering (s : BeamState) (h : isScattering s.rays = false) :
    (handleStartMergeConfirmation s).warnIsScattering = false := by
  rw [hSMC_of_not_scattering s h, createFusion_warn]

theorem hSMC_not_scattering (s : BeamState) :
    isScattering (handleStartMergeConfirmation s).rays = false := by
  by_cases h : isScattering s.rays = true
  · rw [hSMC_of_scattering s h]
    exact isScattering_stopScatteringAll s.rays
  · have h0 : isScattering s.rays = false := by revert h; cases isScattering s.rays <;> simp
    rw [hSMC_of_not_scattering s h0, createFusion_rays]
    exact h0

/-! ### Quiescence of the effect round -/

theorem shallAutoMerge_components (s : BeamState) (h : shallAutoMerge s = true) :
    s.gatherAutoStartAfterScatter = true ∧ canGather s = true ∧
      isScattering s.rays = false ∧ s.hasAutoMerged = false := by
  unfold shallAutoMerge at h
  simp only [Bool.and_eq_true, Bool.not_eq_true'] at h
  exact ⟨h.1.1.1, h.1.1.2, h.1.2, h.2⟩

theorem shallResumeMerge_components (s : BeamState) (h : shallResumeMerge s = true) :
    s.warnIsScattering = true ∧ isScattering s.rays = false ∧
      s.gatherAutoStartAfterScatter = false := by
  unfold shallResumeMerge at h
  simp only [Bool.and_eq_true, Bool.not_eq_true'] at h
  exact ⟨h.1.1, h.1.2, h.2⟩

theorem runEffects_quiescent (s : BeamState) :
    shallAutoMerge (runEffects s) = false ∧ shallResumeMerge (runEffects s) = false := by
  unfold runEffects
  by_cases hA : shallAutoMerge s = true
  · obtain ⟨_, _, hI, _⟩ := shallAutoMerge_components s hA
    rw [if_pos hA]
    constructor
    · unfold shallAutoMerge
      rw [hSMC_hasAutoMerged]
      simp
    · unfold shallResumeMerge
      have hw : (handleStartMergeConfirmation
          { s with hasAutoMerged := true }).warnIsScattering = false :=
        hSMC_warn_of_not_scattering _ hI
      rw [hw]
      simp
  · rw [if_neg hA]
    by_cases hR : shallResumeMerge s = true
    · obtain ⟨_, hI, hG⟩ := shallResumeMerge_components s hR
      rw [if_pos hR]
      constructor
      · unfold shallAutoMerge
        rw [hSMC_autoStart, hG]
        simp
      · unfold shallResumeMerge
        rw [hSMC_warn_of_not_scattering s hI]
        simp
    · rw [if_neg hR]
      constructor
      · revert hA; cases shallAutoMerge s <;> simp
      · revert hR; cases shallResumeMerge s <;> simp

/-! ### Preservation of the auto-merge guard flag -/

theorem handleCreateFusion_hasAutoMerged (s : BeamState) :
    (handleCreateFusion s).hasAutoMerged = s.hasAutoMerged := by
  unfold handleCreateFusion handleCreateFusionCore
  by_cases h : isScattering s.rays = true
  · rw [if_pos h]
  · rw [if_neg h, createFusion_hasAutoMerged]

theorem applyEvent_hasAutoMerged (e : Event) (s : BeamState)
    (he : ∀ r, e ≠ Event.scatterStart r) :
    (applyEvent e s).hasAutoMerged = s.hasAutoMerged := by
  cases e with
  | scatterStart r => exact absurd rfl (he r)
  | scatterStop => rfl
  | setCount n => rfl
  | rayJob i ev => rfl
  | createClick => exact handleCreateFusion_hasAutoMerged s
  | confirmClick => exact hSMC_hasAutoMerged s
  | denyClick => rfl
  | acceptRays => rfl
  | acceptFusion i => rfl

theorem runEffects_hasAutoMerged_of_true (s : BeamState) (h : s.hasAutoMerged = true) :
    (runEffects s).hasAutoMerged = true := by
  unfold runEffects
  by_cases hA : shallAutoMerge s = true
  · obtain ⟨_, _, _, hM⟩ := shallAutoMerge_components s hA
    rw [h] at hM
    exact absurd hM (by simp)
  · rw [if_neg hA]
    by_cases hR : shallResumeMerge s = true
    · rw [if_pos hR, hSMC_hasAutoMerged]
      exact h
    · rw [if_neg hR]
      exact h

theorem shallAutoMerge_false_of_merged (s : BeamState) (h : s.hasAutoMerged = true) :
    shallAutoMerge s = false := by
  unfold shallAutoMerge
  rw [h]
  simp

theorem traceAutoFires_zero (s : BeamState) (es : List Event)
    (hs : s.hasAutoMerged = true)
    (he : ∀ e ∈ es, ∀ r, e ≠ Event.scatterStart r) :
    traceAutoFires s es = 0 := by
  induction es generalizing s with
  | nil => rfl
  | cons e es ih =>
    have h1 : (applyEvent e s).hasAutoMerged = true := by
      rw [applyEvent_hasAutoMerged e s (he e (List.mem_cons_self e es))]
      exact hs
    have h2 : shallAutoMerge (applyEvent e s) = false :=
      shallAutoMerge_false_of_merged _ h1
    unfold traceAutoFires
    simp only [h2, Bool.false_eq_true, if_false, Nat.zero_add]
    exact ih (runEffects (applyEvent e s))
      (runEffects_hasAutoMerged_of_true _ h1)
      (fun x hx => he x (List.mem_cons_of_mem e hx))

/-! ### Claim theorems -/

/-- Claim C5: in every state, the composite `canGather` selector is true
exactly when the ready-ray count is at least 2, a fusion-factory id is
selected, and a target gather model id is selected. -/
theorem canGather_characterization (s : BeamState) :
    canGather s = true ↔
      2 ≤ raysReady s.rays ∧ s.currentFactoryId ≠ none ∧ s.currentGatherLlmId ≠ none := by
  unfold canGather
  simp [Option.isSome_iff_ne_none, ge_iff_le, and_assoc]

/-- Claim C6: while scatter is in progress, resolving the pending merge
confirmation with deny only clears the pending-confirmation flag: no
fusion is created and every ray, including the in-flight generation, is
left unchanged, even after the effect round runs. -/
theorem denyResolution_frame (s : BeamState) (h : isScattering s.rays = true) :
    step Event.denyClick s = { s with warnIsScattering := false } := by
  unfold step applyEvent handleStartMergeDenial runEffects shallAutoMerge shallResumeMerge
  simp [h]

/-! ### Characterizations of the effect round -/

theorem canGather_only_rays (s t : BeamState) (h1 : raysReady s.rays = raysReady t.rays)
    (h2 : s.currentFactoryId = t.currentFactoryId)
    (h3 : s.currentGatherLlmId = t.currentGatherLlmId) :
    canGather s = canGather t := by
  unfold canGather
  rw [h1, h2, h3]

theorem runEffects_of_auto (s : BeamState) (h : shallAutoMerge s = true) :
    runEffects s = createFusion { s with hasAutoMerged := true, warnIsScattering := false } := by
  have hI : isScattering s.rays = false := (shallAutoMerge_components s h).2.2.1
  have hI2 : isScattering ({ s with hasAutoMerged := true } : BeamState).rays = false := hI
  unfold runEffects
  rw [if_pos h, hSMC_of_not_scattering _ hI2]

theorem runEffects_of_resume (s : BeamState) (h1 : s.warnIsScattering = true)
    (h2 : isScattering s.rays = false) (h3 : s.gatherAutoStartAfterScatter = false) :
    runEffects s = createFusion { s with warnIsScattering := false } := by
  have hA : shallAutoMerge s = false := by
    unfold shallAutoMerge
    rw [h3]
    rfl
  have hR : shallResumeMerge s = true := by
    unfold shallResumeMerge
    rw [h1, h2, h3]
    rfl
  unfold runEffects
  rw [if_neg (by simp [hA]), if_pos hR, hSMC_of_not_scattering s h2]

theorem runEffects_of_none (s : BeamState) (hA : shallAutoMerge s = false)
    (hR : shallResumeMerge s = false) : runEffects s = s := by
  unfold runEffects
  rw [if_neg (by simp [hA]), if_neg (by simp [hR])]

/-- Claim C2 (amended): requesting fusion creation branches on whether any
ray is generating. When at least one ray is generating, no fusion is
created and the pending-confirmation flag is raised. When no ray is
generating the store createFusion runs: it appends exactly one fusion when
canGather holds, and is a silent no-op otherwise, so the fusion is created
immediately only under the canGather gate. -/
theorem createFusionRequest_branches (s : BeamState) :
    (isScattering s.rays = true →
      handleCreateFusion s = { s with warnIsScattering := true }) ∧
    (isScattering s.rays = false → canGather s = true →
      (handleCreateFusion s).fusions.length = s.fusions.length + 1 ∧
      (handleCreateFusion s).rays = s.rays ∧
      (handleCreateFusion s).warnIsScattering = s.warnIsScattering) ∧
    (isScattering s.rays = false → canGather s = false → handleCreateFusion s = s) := by
  refine ⟨?_, ?_, ?_⟩
  · intro h
    unfold handleCreateFusion handleCreateFusionCore
    rw [h]
    rfl
  · intro h hc
    unfold handleCreateFusion handleCreateFusionCore
    rw [h]
    simp only [Bool.false_eq_true, if_false]
    exact ⟨by rw [createFusion_fusions_length, if_pos hc], createFusion_rays s,
      createFusion_warn s⟩
  · intro h hc
    unfold handleCreateFusion handleCreateFusionCore
    rw [h]
    simp only [Bool.false_eq_true, if_false]
    exact createFusion_of_not_canGather s hc

/-- A state with no rays at all and no factory or model selected. -/
def stateNoFactory : BeamState :=
  { rays := [], fusions := [], currentFactoryId := none, currentGatherLlmId := none,
    hasSuccessCallback := true, rayCountMax := 8, nextId := 0,
    hasAutoMerged := false, warnIsScattering := false,
    gatherAutoStartAfterScatter := false }

/-- Claim C2 counterexample: in a state where no ray is generating but no
factory is selected, requesting fusion creation changes nothing at all: no
fusion is created (contradicting the claim that with no generating ray the
fusion is created immediately) and no pending confirmation is raised. -/
theorem createFusionRequest_claim_refuted :
    isScattering stateNoFactory.rays = false ∧
    handleCreateFusion stateNoFactory = stateNoFactory ∧
    stateNoFactory.fusions = [] :=
  ⟨rfl, rfl, rfl⟩

/-- A completed ray with output, usable as fusion input. -/
def rayDoneA : Ray :=
  { rayId := 0, status := RayStatus.done, fragments := ["alpha"], errorText := none }

/-- A second completed ray with output. -/
def rayDoneB : Ray :=
  { rayId := 1, status := RayStatus.done, fragments := ["beta"], errorText := none }

/-- A quiet state with two ready rays and both gather ids selected. -/
def stateTwoReady : BeamState :=
  { rays := [rayDoneA, rayDoneB], fusions := [], currentFactoryId := some "pick-best",
    currentGatherLlmId := some "m", hasSuccessCallback := true, rayCountMax := 8,
    nextId := 2, hasAutoMerged := false, warnIsScattering := false,
    gatherAutoStartAfterScatter := false }

theorem createFusionRequest_branches_witness :
    (handleCreateFusion stateTwoReady).fusions.length = stateTwoReady.fusions.length + 1 :=
  ((createFusionRequest_branches stateTwoReady).2.1 rfl (by decide)).1

theorem shallAutoMerge_mk (rays : List Ray) (fus : List Fusion) (cf cl : Option String)
    (cb : Bool) (mx ni : Nat) (am w gas : Bool) :
    shallAutoMerge ⟨rays, fus, cf, cl, cb, mx, ni, am, w, gas⟩ =
      (gas && (decide (raysReady rays ≥ 2) && cf.isSome && cl.isSome) &&
        !isScattering rays && !am) := rfl

theorem shallResumeMerge_mk (rays : List Ray) (fus : List Fusion) (cf cl : Option String)
    (cb : Bool) (mx ni : Nat) (am w gas : Bool) :
    shallResumeMerge ⟨rays, fus, cf, cl, cb, mx, ni, am, w, gas⟩ =
      (w && !isScattering rays && !gas) := rfl

/-- Claim C3 (amended): resolving the pending merge confirmation with
confirm while at least one ray is generating stops every generating ray
and leaves the other rays untouched; because the confirm handler captured
the busy isScattering snapshot, the fusion is created by the follow-up
effect round rather than synchronously, and exactly one new fusion exists
afterwards precisely when canGather held before the stop (stopping
preserves the ready count) and either auto-start-on-scatter-completion is
disabled or auto-merge has not yet fired this scatter pass; otherwise no
fusion is created. -/
theorem confirmResolution_stops_then_merges (s : BeamState)
    (h : isScattering s.rays = true) :
    (step Event.confirmClick s).rays = stopScatteringAll s.rays ∧
    isScattering (step Event.confirmClick s).rays = false ∧
    (step Event.confirmClick s).fusions.length =
      (if canGather s && (!s.gatherAutoStartAfterScatter || !s.hasAutoMerged)
       then s.fusions.length + 1 else s.fusions.length) := by
  have hstep : step Event.confirmClick s =
      runEffects { s with rays := stopScatteringAll s.rays, warnIsScattering := true } := by
    show runEffects (handleStartMergeConfirmation s) = _
    rw [hSMC_of_scattering s h]
  rw [hstep]
  by_cases hGA : s.gatherAutoStartAfterScatter = true
  · by_cases hCGt : canGather s = true
    · by_cases hAM : s.hasAutoMerged = true
      · -- auto-start on, but auto-merge already fired: no effect runs
        have hAuto : shallAutoMerge
            { s with rays := stopScatteringAll s.rays, warnIsScattering := true } = false := by
          rw [shallAutoMerge_mk, hAM]
          simp
        have hRes : shallResumeMerge
            { s with rays := stopScatteringAll s.rays, warnIsScattering := true } = false := by
          rw [shallResumeMerge_mk, hGA]
          simp
        rw [runEffects_of_none _ hAuto hRes]
        refine ⟨rfl, isScattering_stopScatteringAll s.rays, ?_⟩
        rw [hCGt, hGA, hAM]
        rfl
      · -- auto-start on, auto-merge armed: the auto-merge effect fires
        have hAM0 : s.hasAutoMerged = false := by
          revert hAM
          cases s.hasAutoMerged <;> simp
        have hCGv : (decide (raysReady s.rays ≥ 2) && s.currentFactoryId.isSome &&
            s.currentGatherLlmId.isSome) = true := hCGt
        have hAuto : shallAutoMerge
            { s with rays := stopScatteringAll s.rays, warnIsScattering := true } = true := by
          rw [shallAutoMerge_mk, raysReady_stopScatteringAll, isScattering_stopScatteringAll,
            hGA, hAM0, hCGv]
          rfl
        rw [runEffects_of_auto _ hAuto]
        have hCG2 : canGather { s with
            rays := stopScatteringAll s.rays
            warnIsScattering := false
            hasAutoMerged := true } = canGather s :=
          canGather_only_rays _ _ (raysReady_stopScatteringAll s.rays) rfl rfl
        refine ⟨by rw [createFusion_rays], ?_, ?_⟩
        · rw [createFusion_rays]
          exact isScattering_stopScatteringAll s.rays
        · rw [createFusion_fusions_length, hCG2, hCGt, hGA, hAM0]
          rfl
    · -- auto-start on but canGather fails: no effect runs
      have hCG0 : canGather s = false := by
        revert hCGt
        cases canGather s <;> simp
      have hCGv : (decide (raysReady s.rays ≥ 2) && s.currentFactoryId.isSome &&
          s.currentGatherLlmId.isSome) = false := hCG0
      have hAuto : shallAutoMerge
          { s with rays := stopScatteringAll s.rays, warnIsScattering := true } = false := by
        rw [shallAutoMerge_mk, raysReady_stopScatteringAll, hCGv]
        simp
      have hRes : shallResumeMerge
          { s with rays := stopScatteringAll s.rays, warnIsScattering := true } = false := by
        rw [shallResumeMerge_mk, hGA]
        simp
      rw [runEffects_of_none _ hAuto hRes]
      refine ⟨rfl, isScattering_stopScatteringAll s.rays, ?_⟩
      rw [hCG0]
      rfl
  · -- auto-start off: the resume-merge effect fires and runs createFusion
    have hGA0 : s.gatherAutoStartAfterScatter = false := by
      revert hGA
      cases s.gatherAutoStartAfterScatter <;> simp
    have hres := runEffects_of_resume
      { s with rays := stopScatteringAll s.rays, warnIsScattering := true }
      rfl (isScattering_stopScatteringAll s.rays) hGA0
    rw [hres]
    have hCG2 : canGather { s with
        rays := stopScatteringAll s.rays
        warnIsScattering := false } = canGather s :=
      canGather_only_rays _ _ (raysReady_stopScatteringAll s.rays) rfl rfl
    refine ⟨by rw [createFusion_rays], ?_, ?_⟩
    · rw [createFusion_rays]
      exact isScattering_stopScatteringAll s.rays
    · rw [createFusion_fusions_length, hCG2, hGA0]
      by_cases hCGt : canGather s = true
      · rw [hCGt]
        rfl
      · have hCG0 : canGather s = false := by
          revert hCGt
          cases canGather s <;> simp
        rw [hCG0]
        rfl

/-- A fusion already produced by the auto-merge of the current pass. -/
def fusionDone : Fusion :=
  { fusionId := 10, factoryId := "pick-best", llmId := "m", stage := FusionStage.done,
    outputDMessage := some ["merged"], errorText := none,
    inputSnapshot := [["alpha"], ["beta"]] }

/-- A still-generating third ray holding partial output. -/
def rayGenR : Ray :=
  { rayId := 2, status := RayStatus.generating, fragments := ["partial"], errorText := none }

/-- Auto-start enabled; the auto-merge of this pass has already fired and
produced the existing fusion; one ray was then restarted and is generating
again, and the user has requested another merge, so the confirmation is
pending. Two rays remain ready, so canGather holds. -/
def stateStuck : BeamState :=
  { rays := [rayDoneA, rayDoneB, rayGenR], fusions := [fusionDone],
    currentFactoryId := some "pick-best", currentGatherLlmId := some "m",
    hasSuccessCallback := true, rayCountMax := 8, nextId := 11,
    hasAutoMerged := true, warnIsScattering := true,
    gatherAutoStartAfterScatter := true }

/-- Claim C3 counterexample: confirming the pending merge while one ray is
generating does stop the rays, but no fusion at all is created: the
confirm handler re-raises the warning through its stale busy snapshot, and
neither follow-up effect can fire, because auto-start is enabled and the
auto-merge guard of this pass is already spent. This contradicts the claim
that after a confirm resolution taken while at least one ray was
generating exactly one new fusion exists; the confirmation even stays
pending. -/
theorem confirmResolution_claim_refuted :
    isScattering stateStuck.rays = true ∧
    (step Event.confirmClick stateStuck).fusions = stateStuck.fusions ∧
    (∀ r ∈ (step Event.confirmClick stateStuck).rays,
      r.status ≠ RayStatus.generating) ∧
    (step Event.confirmClick stateStuck).warnIsScattering = true := by
  refine ⟨rfl, by decide, by decide, by decide⟩

/-- A pending-confirmation state with two ready rays and one generating. -/
def statePendingRich : BeamState :=
  { rays := [rayDoneA, rayDoneB, rayGenR], fusions := [], currentFactoryId := some "pick-best",
    currentGatherLlmId := some "m", hasSuccessCallback := true, rayCountMax := 8,
    nextId := 3, hasAutoMerged := false, warnIsScattering := true,
    gatherAutoStartAfterScatter := false }

theorem confirmResolution_stops_then_merges_witness :
    (step Event.confirmClick statePendingRich).rays = stopScatteringAll statePendingRich.rays ∧
    isScattering (step Event.confirmClick statePendingRich).rays = false ∧
    (step Event.confirmClick statePendingRich).fusions.length =
      (if canGather statePendingRich &&
          (!statePendingRich.gatherAutoStartAfterScatter || !statePendingRich.hasAutoMerged)
       then statePendingRich.fusions.length + 1 else statePendingRich.fusions.length) :=
  confirmResolution_stops_then_merges statePendingRich (by decide)

/-- Claim C4 (amended): suppose the merge confirmation is pending and
scattering has just finished on its own. When
auto-start-on-scatter-completion is disabled, the effect round resolves
the pending confirmation exactly as a confirm would, clearing it. When
auto-start-on-scatter-completion is enabled, completion triggers the
auto-merge path and clears the pending confirmation provided canGather
holds and auto-merge has not yet fired this scatter pass; otherwise the
effect round does nothing and the confirmation stays pending. -/
theorem scatterFinish_race_resolution (s : BeamState)
    (hw : s.warnIsScattering = true) (hns : isScattering s.rays = false) :
    (s.gatherAutoStartAfterScatter = false →
      runEffects s = handleStartMergeConfirmation s ∧
      (runEffects s).warnIsScattering = false) ∧
    (s.gatherAutoStartAfterScatter = true → canGather s = true → s.hasAutoMerged = false →
      (runEffects s).warnIsScattering = false ∧
      (runEffects s).fusions.length = s.fusions.length + 1 ∧
      (runEffects s).hasAutoMerged = true) ∧
    (s.gatherAutoStartAfterScatter = true →
      (canGather s = false ∨ s.hasAutoMerged = true) → runEffects s = s) := by
  refine ⟨?_, ?_, ?_⟩
  · intro hGA0
    have hres := runEffects_of_resume s hw hns hGA0
    refine ⟨?_, ?_⟩
    · rw [hres, hSMC_of_not_scattering s hns]
    · rw [hres, createFusion_warn]
  · intro hGA hCGt hAM0
    have hAuto : shallAutoMerge s = true := by
      unfold shallAutoMerge
      rw [hGA, hCGt, hns, hAM0]
      rfl
    have hCG2 : canGather { s with
        hasAutoMerged := true
        warnIsScattering := false } = canGather s :=
      canGather_only_rays _ _ rfl rfl rfl
    rw [runEffects_of_auto s hAuto]
    refine ⟨createFusion_warn _, ?_, createFusion_hasAutoMerged _⟩
    rw [createFusion_fusions_length, hCG2, hCGt]
    rfl
  · intro hGA hbad
    have hAuto : shallAutoMerge s = false := by
      unfold shallAutoMerge
      cases hbad with
      | inl hc => rw [hc]; simp
      | inr hm => rw [hm]; simp
    have hRes : shallResumeMerge s = false := by
      unfold shallResumeMerge
      rw [hGA]
      simp
    exact runEffects_of_none s hAuto hRes

/-- A third completed ray with output. -/
def rayDoneC : Ray :=
  { rayId := 2, status := RayStatus.done, fragments := ["gamma"], errorText := none }

/-- The stuck scenario after the restarted ray finished on its own:
auto-start enabled, the pass already auto-merged, confirmation pending,
and no ray generating any more. -/
def stateStuckDone : BeamState :=
  { rays := [rayDoneA, rayDoneB, rayDoneC], fusions := [fusionDone],
    currentFactoryId := some "pick-best", currentGatherLlmId := some "m",
    hasSuccessCallback := true, rayCountMax := 8, nextId := 11,
    hasAutoMerged := true, warnIsScattering := true,
    gatherAutoStartAfterScatter := true }

/-- Claim C4 counterexample: auto-start is enabled, the confirmation is
pending, scattering has finished on its own with three ready rays, but the
auto-merge of this pass has already fired. The claim says completion
triggers the auto-merge path directly and the pending confirmation is
cleared; instead the effect round does nothing: the confirmation stays
pending and no fusion is created. -/
theorem scatterFinish_race_claim_refuted :
    stateStuckDone.gatherAutoStartAfterScatter = true ∧
    stateStuckDone.warnIsScattering = true ∧
    isScattering stateStuckDone.rays = false ∧
    runEffects stateStuckDone = stateStuckDone ∧
    (runEffects stateStuckDone).warnIsScattering = true ∧
    (runEffects stateStuckDone).fusions = stateStuckDone.fusions := by
  refine ⟨rfl, rfl, by decide, by decide, by decide, by decide⟩

/-- Confirmation pending with auto-start disabled; both rays finished with
usable output. -/
def statePendingReady : BeamState :=
  { rays := [rayDoneA, rayDoneB], fusions := [], currentFactoryId := some "pick-best",
    currentGatherLlmId := some "m", hasSuccessCallback := true, rayCountMax := 8,
    nextId := 2, hasAutoMerged := false, warnIsScattering := true,
    gatherAutoStartAfterScatter := false }

theorem scatterFinish_race_resolution_witness :
    runEffects statePendingReady = handleStartMergeConfirmation statePendingReady ∧
    (runEffects statePendingReady).warnIsScattering = false :=
  (scatterFinish_race_resolution statePendingReady rfl (by decide)).1 rfl

/-- Claim C1 (amended): whenever the auto-merge guard holds — auto-start
enabled, canGather (ready count at least 2 and factory id and model id
selected), no ray generating, and no auto-merge fired yet this pass — the
effect round appends exactly one fusion, started when the selected factory
is auto-runnable, and marks the pass as merged; no further auto-merge
fires along any later trace of events that does not start a scatter pass;
and handleScatterStart re-arms the guard with either value of the restart
flag, not only with restart true. -/
theorem autoMerge_fires_once (s : BeamState) (h : shallAutoMerge s = true) :
    (∃ f : Fusion, (runEffects s).fusions = s.fusions ++ [f] ∧
      (factoryIsAutoRunnable s.currentFactoryId = true → f.stage = FusionStage.fusing)) ∧
    (runEffects s).hasAutoMerged = true ∧
    (∀ es : List Event, (∀ e ∈ es, ∀ r, e ≠ Event.scatterStart r) →
      traceAutoFires (runEffects s) es = 0) ∧
    (∀ r, (applyEvent (Event.scatterStart r) s).hasAutoMerged = false) := by
  obtain ⟨hGA, hCG, hI, hM⟩ := shallAutoMerge_components s h
  have hre := runEffects_of_auto s h
  have hct : canGather { s with
      hasAutoMerged := true
      warnIsScattering := false } = true := hCG
  obtain ⟨fid, lid, hfid, hlid, heq⟩ := createFusion_of_canGather _ hct
  have hfus : (runEffects s).fusions =
      s.fusions ++ [newFusion { s with
        hasAutoMerged := true
        warnIsScattering := false } fid lid] := by
    rw [hre, heq]
  have hmerged : (runEffects s).hasAutoMerged = true := by
    rw [hre, createFusion_hasAutoMerged]
  refine ⟨?_, hmerged, ?_, ?_⟩
  · refine ⟨_, hfus, ?_⟩
    intro har
    show (if factoryIsAutoRunnable s.currentFactoryId && s.gatherAutoStartAfterScatter
        then FusionStage.fusing else FusionStage.idle) = FusionStage.fusing
    rw [har, hGA]
    rfl
  · intro es he
    exact traceAutoFires_zero (runEffects s) es hmerged he
  · intro r
    rfl

/-- Auto-start enabled, two ready rays, but no factory selected. -/
def stateReadyNoFactory : BeamState :=
  { rays := [rayDoneA, rayDoneB], fusions := [], currentFactoryId := none,
    currentGatherLlmId := some "m", hasSuccessCallback := true, rayCountMax := 8,
    nextId := 2, hasAutoMerged := false, warnIsScattering := false,
    gatherAutoStartAfterScatter := true }

/-- Auto-start enabled, two ready rays, factory and model selected, and the
auto-merge for this pass has already fired. -/
def stateMergedReady : BeamState :=
  { rays := [rayDoneA, rayDoneB], fusions := [], currentFactoryId := some "pick-best",
    currentGatherLlmId := some "m", hasSuccessCallback := true, rayCountMax := 8,
    nextId := 2, hasAutoMerged := true, warnIsScattering := false,
    gatherAutoStartAfterScatter := true }

/-- Claim C1 counterexample, two refutations at concrete states. First, in
a state with auto-start enabled, ready count 2, no ray generating and the
pass not yet merged, but no factory selected, no fusion is auto-created:
the stated trigger condition is insufficient. Second, after auto-merge has
fired, handleScatterStart with restart false re-arms the guard and a
second auto-merge fires at once, so re-arming is not exclusive to
startAll with restart true. -/
theorem autoMerge_claim_refuted :
    (stateReadyNoFactory.gatherAutoStartAfterScatter = true ∧
      2 ≤ raysReady stateReadyNoFactory.rays ∧
      isScattering stateReadyNoFactory.rays = false ∧
      stateReadyNoFactory.hasAutoMerged = false ∧
      runEffects stateReadyNoFactory = stateReadyNoFactory) ∧
    (stateMergedReady.hasAutoMerged = true ∧
      (step (Event.scatterStart false) stateMergedReady).fusions.length =
        stateMergedReady.fusions.length + 1) := by
  exact ⟨⟨rfl, by decide, by decide, rfl, by decide⟩, ⟨rfl, by decide⟩⟩

/-- Auto-start enabled, two ready rays, factory and model selected, pass
not yet merged: exactly the auto-merge guard. -/
def stateAutoReady : BeamState :=
  { rays := [rayDoneA, rayDoneB], fusions := [], currentFactoryId := some "pick-best",
    currentGatherLlmId := some "m", hasSuccessCallback := true, rayCountMax := 8,
    nextId := 2, hasAutoMerged := false, warnIsScattering := false,
    gatherAutoStartAfterScatter := true }

theorem autoMerge_fires_once_witness :
    (runEffects stateAutoReady).hasAutoMerged = true ∧
    (∃ f : Fusion, (runEffects stateAutoReady).fusions = stateAutoReady.fusions ++ [f] ∧
      (factoryIsAutoRunnable stateAutoReady.currentFactoryId = true →
        f.stage = FusionStage.fusing)) :=
  ⟨(autoMerge_fires_once stateAutoReady (by decide)).2.1,
    (autoMerge_fires_once stateAutoReady (by decide)).1⟩

/-- Confirmation pending while the third ray is still generating. -/
def stateDenyBusy : BeamState :=
  { rays := [rayDoneA, rayGenR], fusions := [], currentFactoryId := some "pick-best",
    currentGatherLlmId := some "m", hasSuccessCallback := true, rayCountMax := 8,
    nextId := 3, hasAutoMerged := false, warnIsScattering := true,
    gatherAutoStartAfterScatter := false }

theorem denyResolution_frame_witness :
    step Event.denyClick stateDenyBusy = { stateDenyBusy with warnIsScattering := false } :=
  denyResolution_frame stateDenyBusy (by decide)

/-- Claim C7: setRayCount resizes the ray set to the clamped count. For n
between 0 and the configured maximum the resulting count is exactly n; the
first min(n, previous count) rays are preserved untouched; trailing rays
are removed, and exactly the removed rays that were generating have their
jobs cancelled; rays created beyond the previous count are idle with empty
output; out-of-range n is clamped into range, never rejected. -/
theorem setRayCount_resizes (s : BeamState) (n : Int) :
    (setRayCount n s).rays.length = clampRayCount n s.rayCountMax ∧
    (0 ≤ n → n ≤ (s.rayCountMax : Int) → (setRayCount n s).rays.length = n.toNat) ∧
    ((setRayCount n s).rays.take (min (clampRayCount n s.rayCountMax) s.rays.length) =
      s.rays.take (min (clampRayCount n s.rayCountMax) s.rays.length)) ∧
    (∀ r ∈ (setRayCount n s).rays.drop s.rays.length,
      r.status = RayStatus.idle ∧ r.fragments = []) ∧
    setRayCountCancelledJobs n s =
      ((s.rays.drop (clampRayCount n s.rayCountMax)).filter
        (fun r => r.status == RayStatus.generating)).map Ray.rayId := by
  have hlen : (setRayCount n s).rays.length = clampRayCount n s.rayCountMax := by
    simp only [setRayCount, List.length_append, List.length_take, List.length_map,
      List.length_range]
    omega
  refine ⟨hlen, ?_, ?_, ?_, rfl⟩
  · intro h0 h1
    rw [hlen]
    unfold clampRayCount
    omega
  · simp only [setRayCount, List.take_append_eq_append_take, List.length_take, List.take_take]
    have h1 : min (min (clampRayCount n s.rayCountMax) s.rays.length)
        (clampRayCount n s.rayCountMax) = min (clampRayCount n s.rayCountMax) s.rays.length := by
      omega
    have h2 : min (clampRayCount n s.rayCountMax) s.rays.length -
        min (clampRayCount n s.rayCountMax) s.rays.length = 0 := by
      omega
    rw [h1, h2]
    simp
  · intro r hr
    by_cases hm : clampRayCount n s.rayCountMax ≤ s.rays.length
    · have : (setRayCount n s).rays.length ≤ s.rays.length := by
        rw [hlen]
        exact hm
      rw [List.drop_eq_nil_of_le this] at hr
      exact absurd hr (List.not_mem_nil r)
    · have hlt : s.rays.length < clampRayCount n s.rayCountMax := by omega
      have htl : (s.rays.take (clampRayCount n s.rayCountMax)).length = s.rays.length := by
        simp only [List.length_take]
        omega
      have hdrop : (setRayCount n s).rays.drop s.rays.length =
          (List.range (clampRayCount n s.rayCountMax - s.rays.length)).map
            (fun i => mkIdleRay (s.nextId + i)) := by
        show ((s.rays.take (clampRayCount n s.rayCountMax)) ++
          (List.range (clampRayCount n s.rayCountMax - s.rays.length)).map
            (fun i => mkIdleRay (s.nextId + i))).drop s.rays.length = _
        rw [← htl, List.drop_left]
      rw [hdrop] at hr
      obtain ⟨i, _, hi⟩ := List.mem_map.mp hr
      rw [← hi]
      exact ⟨rfl, rfl⟩

theorem setRayCount_resizes_witness :
    (setRayCount 1 stateTwoReady).rays.length = Int.toNat 1 ∧
    (setRayCount 1 stateTwoReady).rays.take
        (min (clampRayCount 1 stateTwoReady.rayCountMax) stateTwoReady.rays.length) =
      stateTwoReady.rays.take
        (min (clampRayCount 1 stateTwoReady.rayCountMax) stateTwoReady.rays.length) :=
  ⟨(setRayCount_resizes stateTwoReady 1).2.1 (by decide) (by decide),
    (setRayCount_resizes stateTwoReady 1).2.2.1⟩

theorem foldl_applyJobEvent_stopped (r : Ray) (h : r.status = RayStatus.stopped)
    (evs : List JobEvent) : evs.foldl Ray.applyJobEvent r = r := by
  induction evs with
  | nil => rfl
  | cons e es ih =>
    have hstep : r.applyJobEvent e = r := by
      unfold Ray.applyJobEvent
      rw [h]
      rfl
    rw [List.foldl_cons, hstep]
    exact ih

theorem foldl_fusionJobEvent_stopped (f : Fusion) (h : f.stage = FusionStage.stopped)
    (evs : List JobEvent) : evs.foldl Fusion.applyJobEvent f = f := by
  induction evs with
  | nil => rfl
  | cons e es ih =>
    have hstep : f.applyJobEvent e = f := by
      unfold Fusion.applyJobEvent
      rw [h]
      rfl
    rw [List.foldl_cons, hstep]
    exact ih

/-- Claim C8: cancelling a generating ray or a fusing fusion yields the
terminal state stopped — never done and never error — and it stays stopped
even when further job events, such as a final chunk, a completion or a
failure, were still in flight; an explicit stop is never reported as an
error state. -/
theorem cancel_yields_stopped (r : Ray) (hr : r.status = RayStatus.generating)
    (evs : List JobEvent) (f : Fusion) (hf : f.stage = FusionStage.fusing)
    (fevs : List JobEvent) :
    (evs.foldl Ray.applyJobEvent (rayStop r)).status = RayStatus.stopped ∧
    (evs.foldl Ray.applyJobEvent (rayStop r)).status ≠ RayStatus.done ∧
    (evs.foldl Ray.applyJobEvent (rayStop r)).status ≠ RayStatus.error ∧
    (fevs.foldl Fusion.applyJobEvent (fusionStop f)).stage = FusionStage.stopped := by
  have hstop : (rayStop r).status = RayStatus.stopped := by
    unfold rayStop
    rw [hr]
    rfl
  have hfold : evs.foldl Ray.applyJobEvent (rayStop r) = rayStop r :=
    foldl_applyJobEvent_stopped (rayStop r) hstop evs
  have hfstop : (fusionStop f).stage = FusionStage.stopped := by
    unfold fusionStop
    rw [hf]
    rfl
  have hffold : fevs.foldl Fusion.applyJobEvent (fusionStop f) = fusionStop f :=
    foldl_fusionJobEvent_stopped (fusionStop f) hfstop fevs
  rw [hfold, hffold, hstop, hfstop]
  exact ⟨rfl, by decide, by decide, rfl⟩

/-- A fusing fusion with partial output. -/
def fusionBusy : Fusion :=
  { fusionId := 5, factoryId := "pick-best", llmId := "m", stage := FusionStage.fusing,
    outputDMessage := some ["draft"], errorText := none, inputSnapshot := [["alpha"], ["beta"]] }

theorem cancel_yields_stopped_witness :
    (([JobEvent.delta "tail", JobEvent.completed].foldl
        Ray.applyJobEvent (rayStop rayGenR)).status = RayStatus.stopped) ∧
    (([JobEvent.completed].foldl
        Fusion.applyJobEvent (fusionStop fusionBusy)).stage = FusionStage.stopped) :=
  ⟨(cancel_yields_stopped rayGenR rfl [JobEvent.delta "tail", JobEvent.completed]
      fusionBusy rfl [JobEvent.completed]).1,
    (cancel_yields_stopped rayGenR rfl [JobEvent.delta "tail", JobEvent.completed]
      fusionBusy rfl [JobEvent.completed]).2.2.2⟩

/-- Claim C9: accepting the combined rays output or a fusion output leaves
the whole state unchanged — no ray or fusion is mutated; when it fires, the
success callback receives exactly that output message, and each acceptance
emits at most one invocation; no other event ever emits an invocation, so
the callback is never invoked automatically. -/
theorem accept_invokes_callback_without_mutation (s : BeamState) (i : Nat) :
    applyEvent Event.acceptRays s = s ∧
    applyEvent (Event.acceptFusion i) s = s ∧
    (emits Event.acceptRays s).length ≤ 1 ∧
    (emits (Event.acceptFusion i) s).length ≤ 1 ∧
    (s.hasSuccessCallback = true → allRayFragments s ≠ [] →
      emits Event.acceptRays s = [allRayFragments s]) ∧
    (∀ f msg, s.fusions.find? (fun g => g.fusionId == i) = some f →
      f.outputDMessage = some msg → msg ≠ [] → s.hasSuccessCallback = true →
      emits (Event.acceptFusion i) s = [msg]) ∧
    (∀ e : Event, e ≠ Event.acceptRays → (∀ j, e ≠ Event.acceptFusion j) →
      emits e s = []) := by
  refine ⟨rfl, rfl, ?_, ?_, ?_, ?_, ?_⟩
  · show (if (allRayFragments s).length ≠ 0 then
        (if s.hasSuccessCallback then [allRayFragments s] else []) else []).length ≤ 1
    split_ifs <;> simp
  · show (handleFusionUse i s).length ≤ 1
    unfold handleFusionUse
    rcases hfind : s.fusions.find? (fun g => g.fusionId == i) with _ | f
    · simp [hfind]
    · simp only [hfind]
      rcases hmsg : f.outputDMessage with _ | msg
      · simp
      · simp only []
        split_ifs <;> simp
  · intro hcb hne
    show (if (allRayFragments s).length ≠ 0 then
        (if s.hasSuccessCallback then [allRayFragments s] else []) else []) =
      [allRayFragments s]
    have hlen : (allRayFragments s).length ≠ 0 := by
      simpa [List.length_eq_zero] using hne
    rw [if_pos hlen, if_pos (by rw [hcb])]
  · intro f msg hfind hmsg hne hcb
    show handleFusionUse i s = [msg]
    unfold handleFusionUse
    simp only [hfind, hmsg]
    have hlen : msg.length ≠ 0 := by
      simpa [List.length_eq_zero] using hne
    rw [if_pos ⟨hlen, hcb⟩]
  · intro e h1 h2
    cases e with
    | scatterStart r => rfl
    | scatterStop => rfl
    | setCount n => rfl
    | rayJob i ev => rfl
    | createClick => rfl
    | confirmClick => rfl
    | denyClick => rfl
    | acceptRays => exact absurd rfl h1
    | acceptFusion j => exact absurd rfl (h2 j)

theorem accept_invokes_callback_without_mutation_witness :
    applyEvent Event.acceptRays stateTwoReady = stateTwoReady ∧
    emits Event.acceptRays stateTwoReady = [allRayFragments stateTwoReady] :=
  ⟨(accept_invokes_callback_without_mutation stateTwoReady 0).1,
    (accept_invokes_callback_without_mutation stateTwoReady 0).2.2.2.2.1 rfl (by decide)⟩

/-- Claim C10: the success callback is never invoked with an empty output:
every message emitted by accepting the rays or a fusion is non-empty and
requires a registered callback; with no callback registered, or with no
content fragments across the rays, accepting emits nothing and is a
no-op. -/
theorem accept_never_empty (s : BeamState) (i : Nat) :
    (∀ m ∈ emits Event.acceptRays s, m ≠ [] ∧ s.hasSuccessCallback = true) ∧
    (∀ m ∈ emits (Event.acceptFusion i) s, m ≠ [] ∧ s.hasSuccessCallback = true) ∧
    (s.hasSuccessCallback = false →
      emits Event.acceptRays s = [] ∧ emits (Event.acceptFusion i) s = []) ∧
    (allRayFragments s = [] → emits Event.acceptRays s = []) := by
  refine ⟨?_, ?_, ?_, ?_⟩
  · intro m
    show m ∈ (if (allRayFragments s).length ≠ 0 then
        (if s.hasSuccessCallback then [allRayFragments s] else []) else []) → _
    split_ifs with h1 h2
    · intro hm
      rw [List.mem_singleton] at hm
      subst hm
      exact ⟨by simpa [List.length_eq_zero] using h1, h2⟩
    · intro hm
      exact absurd hm (List.not_mem_nil m)
    · intro hm
      exact absurd hm (List.not_mem_nil m)
  · intro m
    show m ∈ handleFusionUse i s → _
    unfold handleFusionUse
    rcases hfind : s.fusions.find? (fun g => g.fusionId == i) with _ | f
    · simp only [hfind]
      intro hm
      exact absurd hm (List.not_mem_nil m)
    · simp only [hfind]
      rcases hmsg : f.outputDMessage with _ | msg
      · intro hm
        exact absurd hm (List.not_mem_nil m)
      · show m ∈ (if msg.length ≠ 0 ∧ s.hasSuccessCallback = true then [msg] else []) → _
        split_ifs with h1
        · intro hm
          rw [List.mem_singleton] at hm
          subst hm
          exact ⟨by simpa [List.length_eq_zero] using h1.1, h1.2⟩
        · intro hm
          exact absurd hm (List.not_mem_nil m)
  · intro hcb
    constructor
    · show (if (allRayFragments s).length ≠ 0 then
          (if s.hasSuccessCallback then [allRayFragments s] else []) else []) = []
      rw [hcb]
      simp
    · show handleFusionUse i s = []
      unfold handleFusionUse
      rcases hfind : s.fusions.find? (fun g => g.fusionId == i) with _ | f
      · simp [hfind]
      · simp only [hfind]
        rcases hmsg : f.outputDMessage with _ | msg
        · rfl
        · show (if msg.length ≠ 0 ∧ s.hasSuccessCallback = true then [msg] else []) = []
          rw [hcb]
          simp
  · intro hfr
    show (if (allRayFragments s).length ≠ 0 then
        (if s.hasSuccessCallback then [allRayFragments s] else []) else []) = []
    rw [hfr]
    rfl

theorem accept_never_empty_witness :
    allRayFragments stateTwoReady ≠ [] ∧ stateTwoReady.hasSuccessCallback = true :=
  (accept_never_empty stateTwoReady 0).1 (allRayFragments stateTwoReady) (by decide)
